import Mathlib

set_option maxRecDepth 16384

/-!
Verification of the flex 8086 emulator core.

This file is a shallow embedding, in Lean 4, of the CPU execution engine of
the flex emulator (files bus.c, cpu8086.c together with the headers).
Machine integers are modelled as Nat with explicit masking: a C bitmask with
an all-ones constant such as `x & 0xFFFFF` is written `x % 0x100000`, a
`uint16_t` store masks with `% 65536`, a `uint8_t` store with `% 256`.
The host is assumed little-endian, as the source requires (it reads the low
16 bits of the 32-bit `immediate` field through a `uint16_t*`).

C `assert` failures, out-of-bounds opcode-table indexing, and dereferencing
a guest physical address as a host pointer (all of which abort or are
undefined behaviour in the source) are modelled as explicit `Err` outcomes
of the step function, so that every operation is total and executable.
-/

namespace Flex

/-! ## Bus (bus.c)

The bus is a 1 MiB byte memory; every access masks the address with 0xFFFFF
and word accesses are little-endian, split over two byte addresses with wrap.
-/

/-- Byte memory of the bus: an address-indexed byte function. -/
def Mem : Type := Nat → Nat

/-- bus_read_byte: `bus->memory[address & 0xFFFFF]`. -/
def bus_read_byte (m : Mem) (a : Nat) : Nat :=
  m (a % 0x100000) % 256

/-- bus_read_short: low byte at `a & 0xFFFFF`, high byte at `(a+1) & 0xFFFFF`. -/
def bus_read_short (m : Mem) (a : Nat) : Nat :=
  bus_read_byte m a + 256 * bus_read_byte m (a + 1)

/-- bus_write_byte: store one byte at `address & 0xFFFFF`. -/
def bus_write_byte (m : Mem) (a v : Nat) : Mem :=
  fun x => if x = a % 0x100000 then v % 256 else m x

/-- bus_write_short: `data & 0xFF` at `a`, `data >> 8` at `a+1`. -/
def bus_write_short (m : Mem) (a v : Nat) : Mem :=
  bus_write_byte (bus_write_byte m a (v % 256)) (a + 1) (v / 256)

/-! ## Parity table (cpu8086.c)

The source builds a 256-entry table with the P2/P4/P6 macros of the
bit-hacks parity table, seeded `P6(1), P6(0), P6(0), P6(1)` — the comment
in the source says "modified for 1 = even, 0 = odd".
-/

/-- Macro `P2(n) = n, n^1, n^1, n`. -/
def P2 (n : Nat) : List Nat := [n, n ^^^ 1, n ^^^ 1, n]

/-- Macro `P4(n) = P2(n), P2(n^1), P2(n^1), P2(n)`. -/
def P4 (n : Nat) : List Nat := P2 n ++ P2 (n ^^^ 1) ++ P2 (n ^^^ 1) ++ P2 n

/-- Macro `P6(n) = P4(n), P4(n^1), P4(n^1), P4(n)`. -/
def P6 (n : Nat) : List Nat := P4 n ++ P4 (n ^^^ 1) ++ P4 (n ^^^ 1) ++ P4 n

/-- The 256-entry parity lookup table `P6(1), P6(0), P6(0), P6(1)`. -/
def parity_table : List Nat := P6 1 ++ P6 0 ++ P6 0 ++ P6 1

/-- `parity_table[i]` as a Bool (the C table has element type `bool`). -/
def parity_lookup (i : Nat) : Bool := parity_table.getD i 0 ≠ 0

/-- calculate_parity: for a word, XOR of the two byte-table entries; for a
byte, the table entry of the low byte. -/
def calculate_parity (value : Nat) (is_word : Bool) : Bool :=
  if is_word then
    xor (parity_lookup (value % 256)) (parity_lookup ((value / 256) % 256))
  else
    parity_lookup (value % 256)

/-! ## Enumerations -/

/-- enum cpu8086_stage (current source: READY, FETCH_MODRM, FETCH_IMM,
FETCH_ADDRESS, DECODE_LOC, EXECUTING). -/
inductive Stage
  | ready | fetch_modrm | fetch_imm | fetch_address | decode_loc | executing
  deriving DecidableEq

/-- Modelled from the spec: enum location_type of the current header (the
shipped header is stale; the .c file also uses ACCUMULATOR, STRING and NULL
categories, which the spec lists as the full operand-category set). -/
inductive DecodedType
  | register | memory | immediate | segreg | accumulator | stringv | nullv
  deriving DecidableEq

/-- enum opcode_location. -/
inductive OpLoc
  | lAX | lCX | lDX | lBX | lSP | lBP | lSI | lDI
  | lES | lCS | lSS | lDS
  | lAL | lCL | lDL | lBL | lAH | lCH | lDH | lBH
  | lIMM | lIMM8
  | lRM | lREG | lSREG
  | lADDR | lSEGOFF
  | lSTRSRC | lSTRDST
  | lNULL
  deriving DecidableEq

/-- The numeric value of an `enum opcode_location` constant (the source
casts the enum to unsigned for register indexing). -/
def OpLoc.toNat : OpLoc → Nat
  | .lAX => 0 | .lCX => 1 | .lDX => 2 | .lBX => 3
  | .lSP => 4 | .lBP => 5 | .lSI => 6 | .lDI => 7
  | .lES => 8 | .lCS => 9 | .lSS => 10 | .lDS => 11
  | .lAL => 12 | .lCL => 13 | .lDL => 14 | .lBL => 15
  | .lAH => 16 | .lCH => 17 | .lDH => 18 | .lBH => 19
  | .lIMM => 20 | .lIMM8 => 21
  | .lRM => 22 | .lREG => 23 | .lSREG => 24
  | .lADDR => 25 | .lSEGOFF => 26
  | .lSTRSRC => 27 | .lSTRDST => 28
  | .lNULL => 29

/-- Handler identifiers: one per `op_*` function of the source. The opcode
tables store these where the C tables store function pointers. -/
inductive OpFunc
  | aaa | aas | adc | add | andf | callfar | cbw | cmp | cwd | daa | das
  | dec | imm | inc
  | ja | jae | jb | jbe | je | jg | jge | jl | jle | jne | jno | jnp | jns
  | jo | jp | js
  | lahf | lea | lds | les | mov | orf | pop | popf | push | pushf
  | retnear | retfar | sahf | sbb | sub | testf | waitf | xchg | xorf
  deriving DecidableEq

/-- A C pointer value as used in `uintptr_t` fields: either a pointer into
the CPU register block (byte offset from `&cpu->ax`), a pointer into the
`immediate` field (byte offset from `&cpu->immediate`), a guest physical
address, or the null pointer produced by `calloc` zero-initialisation. -/
inductive Ptr
  | reg (off : Nat)
  | immp (off : Nat)
  | memp (a : Nat)
  | nullp
  deriving DecidableEq

/-- struct location: a decoded category, an address (pointer or guest
physical address) and the `virtual` flag selecting bus access. -/
structure Location where
  ty : DecodedType
  addr : Ptr
  virt : Bool
  deriving DecidableEq

/-- struct opcode: name, destination/source descriptors, width flag, string
flag and handler (None for the table rows whose C handler is NULL). -/
structure Opcode where
  name : String
  destination : OpLoc
  source : OpLoc
  is_word : Bool
  is_string : Bool
  func : Option OpFunc

/-- Abort/undefined-behaviour outcomes of the C source, made explicit:
`assertFail` for a failed `assert`, `oobTable` for an opcode-table index
past the end of the table, `badPointer` for dereferencing a pointer value
that does not point at host storage of the accessed kind, and `fuelOut` for
a repeat loop that does not terminate within the 16-bit CX range. -/
inductive Err
  | assertFail | oobTable | badPointer | fuelOut
  deriving DecidableEq

/-! ## CPU state (struct cpu8086)

The general/segment registers are separate 16-bit fields; the byte-offset
view `rbyte` below reproduces the in-memory union layout the source relies
on (ax at offsets 0..1 through ds at 22..23, followed by ip, flags and the
queue words, which pointer arithmetic in the source can reach).

Fields `rep` (C `repeat`), `test`, `lo_segment`, `hi_segment` and the
32-bit `immediate` are used by the .c file but missing from the shipped
stale header; they are modelled from the spec (decode scratch: "seg-offset
low/high bytes, `repeat` flag", WAIT TEST input, packed 32-bit
segment:offset immediate), with the same 0xFFFF "unread" sentinels the
other scratch bytes use.
-/

structure St where
  mem : Mem
  ax : Nat
  cx : Nat
  dx : Nat
  bx : Nat
  sp : Nat
  bp : Nat
  si : Nat
  di : Nat
  es : Nat
  cs : Nat
  ss : Nat
  ds : Nat
  ip : Nat
  flags : Nat
  q0 : Nat
  q1 : Nat
  q2 : Nat
  q_r : Nat
  q_w : Nat
  hl : Bool
  mt : Bool
  current_ip : Nat
  cycles : Nat
  biu_prefetch_cycles : Nat
  rep : Bool
  test : Bool
  pre_g1 : Nat
  pre_g2 : Nat
  opcode_byte : Nat
  disp8_byte : Nat
  disp16_byte : Nat
  imm8_byte : Nat
  imm16_byte : Nat
  lo_segment : Nat
  hi_segment : Nat
  immediate : Nat
  rm : Ptr
  reg : Ptr
  stage : Stage
  modrm_byte : Nat
  modrm_is_segreg : Bool
  destination : Location
  source : Location

/-! ### Register-block byte view -/

/-- The 16-bit word at register index `i` of the block starting at
`&cpu->ax` (0..11 are AX..DS; 12..15 continue into ip, flags, q0, q1,
exactly as the struct layout does). -/
def rword (s : St) (i : Nat) : Nat :=
  (match i with
   | 0 => s.ax | 1 => s.cx | 2 => s.dx | 3 => s.bx
   | 4 => s.sp | 5 => s.bp | 6 => s.si | 7 => s.di
   | 8 => s.es | 9 => s.cs | 10 => s.ss | 11 => s.ds
   | 12 => s.ip | 13 => s.flags | 14 => s.q0 | 15 => s.q1
   | _ => 0) % 65536

/-- Store a 16-bit word at register index `i` of the block. -/
def rwordSet (s : St) (i : Nat) (v : Nat) : St :=
  match i with
  | 0 => { s with ax := v % 65536 }
  | 1 => { s with cx := v % 65536 }
  | 2 => { s with dx := v % 65536 }
  | 3 => { s with bx := v % 65536 }
  | 4 => { s with sp := v % 65536 }
  | 5 => { s with bp := v % 65536 }
  | 6 => { s with si := v % 65536 }
  | 7 => { s with di := v % 65536 }
  | 8 => { s with es := v % 65536 }
  | 9 => { s with cs := v % 65536 }
  | 10 => { s with ss := v % 65536 }
  | 11 => { s with ds := v % 65536 }
  | 12 => { s with ip := v % 65536 }
  | 13 => { s with flags := v % 65536 }
  | 14 => { s with q0 := v % 65536 }
  | 15 => { s with q1 := v % 65536 }
  | _ => s

/-- The byte at byte offset `off` of the register block (little-endian, as
the union layout of the source provides). -/
def rbyte (s : St) (off : Nat) : Nat :=
  if off % 2 = 0 then rword s (off / 2) % 256 else rword s (off / 2) / 256

/-- Store a byte at byte offset `off` of the register block. -/
def rbyteSet (s : St) (off : Nat) (v : Nat) : St :=
  let w := rword s (off / 2)
  if off % 2 = 0 then rwordSet s (off / 2) (w / 256 * 256 + v % 256)
  else rwordSet s (off / 2) (v % 256 * 256 + w % 256)

/-- cpu8086_reg_word: `(uint16_t*)(&cpu->ax) + reg`. -/
def cpu8086_reg_word (r : Nat) : Ptr := Ptr.reg (2 * r)

/-- cpu8086_reg_byte: `(uint8_t*)(&cpu->ax) + (reg & 0b11) * 2 + (reg & 0b100)`. -/
def cpu8086_reg_byte (r : Nat) : Ptr := Ptr.reg (r % 4 * 2 + (r &&& 4))

/-! ### Flags -/

def FLAG_CARRY : Nat := 1
def FLAG_PARITY : Nat := 4
def FLAG_AUXILIARY : Nat := 16
def FLAG_ZERO : Nat := 64
def FLAG_SIGN : Nat := 128
def FLAG_TRAP : Nat := 256
def FLAG_INTENABLE : Nat := 512
def FLAG_DIRECTION : Nat := 1024
def FLAG_OVERFLOW : Nat := 2048

/-- cpu8086_getflag: `!!(cpu->flags & flag)`. -/
def cpu8086_getflag (s : St) (flag : Nat) : Bool := s.flags &&& flag ≠ 0

/-- cpu8086_setflag: set or clear a flag bit. -/
def cpu8086_setflag (s : St) (flag : Nat) (toggle : Bool) : St :=
  if toggle then { s with flags := s.flags ||| flag }
  else { s with flags := s.flags &&& (65535 ^^^ flag) }

/-- mask_buffer lookup: 0xFF for byte width, 0xFFFF for word width. -/
def mask_buffer (is_word : Bool) : Nat := if is_word then 0xFFFF else 0xFF

/-- sign_bit lookup: 7 for byte width, 15 for word width. -/
def sign_bit (is_word : Bool) : Nat := if is_word then 15 else 7

/-- cpu8086_setpzs_flags: the parameter is `uint16_t`, so the result is
truncated to 16 bits at the call. -/
def cpu8086_setpzs_flags (s : St) (result : Nat) (is_word : Bool) : St :=
  let r := result % 65536
  let s := cpu8086_setflag s FLAG_PARITY (calculate_parity r is_word)
  let s := cpu8086_setflag s FLAG_ZERO (r &&& mask_buffer is_word = 0)
  cpu8086_setflag s FLAG_SIGN ((r >>> sign_bit is_word) &&& 1 ≠ 0)

/-! ### Stack, prefetch dequeue, jump -/

/-- cpu8086_push: decrement SP by 2 (16-bit wrap), then write the word at
`(SS << 4) + SP`. -/
def cpu8086_push (s : St) (word : Nat) : St :=
  let sp2 := (s.sp + 65534) % 65536
  { s with sp := sp2, mem := bus_write_short s.mem (s.ss <<< 4 + sp2) (word % 65536) }

/-- cpu8086_pop: read the word at `(SS << 4) + SP`, then increment SP by 2. -/
def cpu8086_pop (s : St) : St × Nat :=
  let word := bus_read_short s.mem (s.ss <<< 4 + s.sp)
  ({ s with sp := (s.sp + 2) % 65536 }, word)

/-- The queue word at index `i` (q[0..2]; other index values are never
produced by the source updates, modelled as 0). -/
def qGet (s : St) (i : Nat) : Nat :=
  if i = 0 then s.q0 else if i = 1 then s.q1 else if i = 2 then s.q2 else 0

/-- Store a queue word at index `i`. -/
def qSet (s : St) (i : Nat) (v : Nat) : St :=
  if i = 0 then { s with q0 := v % 65536 }
  else if i = 1 then { s with q1 := v % 65536 }
  else if i = 2 then { s with q2 := v % 65536 }
  else s

/-- cpu8086_prefetch_dequeue: pull the byte selected by `hl` from `q[q_r]`;
when the high byte was read, advance `q_r` mod 3 and recompute `mt`; toggle
`hl`; increment `current_ip`. Returns the updated state and the byte. -/
def cpu8086_prefetch_dequeue (s : St) : St × Nat :=
  let read := (qGet s s.q_r >>> (if s.hl then 8 else 0)) % 256
  let s :=
    if s.hl then
      let r2 := (s.q_r + 1) % 3
      { s with q_r := r2, mt := r2 = s.q_w }
    else s
  let s := { s with hl := !s.hl, current_ip := (s.current_ip + 1) % 65536 }
  (s, read)

/-- cpu8086_jump: the control-transfer primitive. Sets `hl := false`,
`mt := false`, `q_r := q_w`, adds 4 to the BIU countdown unless it is 3
(uint8 wrap), then installs the new CS:IP (also into `current_ip`). -/
def cpu8086_jump (s : St) (cs ip : Nat) : St :=
  let s := { s with hl := false, mt := false, q_r := s.q_w }
  let s :=
    if s.biu_prefetch_cycles ≠ 3 then
      { s with biu_prefetch_cycles := (s.biu_prefetch_cycles + 4) % 256 }
    else s
  { s with cs := cs % 65536, ip := ip % 65536, current_ip := ip % 65536 }

/-- Add to the `cycles` counter (a uint8 field). -/
def addCycles (s : St) (k : Nat) : St :=
  { s with cycles := (s.cycles + k) % 256 }

/-! ## Root opcode table (op_table)

A literal transcription of the 204 initialisers of `op_table` in the
source: rows 0x00 through 0xCB. The C array ends after the 0xCB row. -/

def opRow (name : String) (d s : OpLoc) (w st : Bool) (f : Option OpFunc) : Opcode :=
  ⟨name, d, s, w, st, f⟩

def op_table : List Opcode := [
  -- 0x00 to 0x0F
  opRow "ADD" .lRM .lREG false false (some .add),
  opRow "ADD" .lRM .lREG true false (some .add),
  opRow "ADD" .lREG .lRM false false (some .add),
  opRow "ADD" .lREG .lRM true false (some .add),
  opRow "ADD" .lAL .lIMM false false (some .add),
  opRow "ADD" .lAX .lIMM true false (some .add),
  opRow "PUSH" .lES .lNULL true false (some .push),
  opRow "POP" .lES .lNULL true false (some .pop),
  opRow "OR" .lRM .lREG false false (some .orf),
  opRow "OR" .lRM .lREG true false (some .orf),
  opRow "OR" .lREG .lRM false false (some .orf),
  opRow "OR" .lREG .lRM true false (some .orf),
  opRow "OR" .lAL .lIMM false false (some .orf),
  opRow "OR" .lAX .lIMM true false (some .orf),
  opRow "PUSH" .lCS .lNULL true false (some .push),
  opRow "ILLEG." .lNULL .lNULL true false none,
  -- 0x10 to 0x1F
  opRow "ADC" .lRM .lREG false false (some .adc),
  opRow "ADC" .lRM .lREG true false (some .adc),
  opRow "ADC" .lREG .lRM false false (some .adc),
  opRow "ADC" .lREG .lRM true false (some .adc),
  opRow "ADC" .lAL .lIMM false false (some .adc),
  opRow "ADC" .lAX .lIMM true false (some .adc),
  opRow "PUSH" .lSS .lNULL true false (some .push),
  opRow "POP" .lSS .lNULL true false (some .pop),
  opRow "SBB" .lRM .lREG false false (some .sbb),
  opRow "SBB" .lRM .lREG true false (some .sbb),
  opRow "SBB" .lREG .lRM false false (some .sbb),
  opRow "SBB" .lREG .lRM true false (some .sbb),
  opRow "SBB" .lAL .lIMM false false (some .sbb),
  opRow "SBB" .lAX .lIMM true false (some .sbb),
  opRow "PUSH" .lDS .lNULL true false (some .push),
  opRow "POP" .lDS .lNULL true false (some .pop),
  -- 0x20 to 0x2F
  opRow "AND" .lRM .lREG false false (some .andf),
  opRow "AND" .lRM .lREG true false (some .andf),
  opRow "AND" .lREG .lRM false false (some .andf),
  opRow "AND" .lREG .lRM true false (some .andf),
  opRow "AND" .lAL .lIMM false false (some .andf),
  opRow "AND" .lAX .lIMM true false (some .andf),
  opRow "ES:" .lNULL .lNULL false false none,
  opRow "DAA" .lNULL .lNULL false false (some .daa),
  opRow "SUB" .lRM .lREG false false (some .sub),
  opRow "SUB" .lRM .lREG true false (some .sub),
  opRow "SUB" .lREG .lRM false false (some .sub),
  opRow "SUB" .lREG .lRM true false (some .sub),
  opRow "SUB" .lAL .lIMM false false (some .sub),
  opRow "SUB" .lAX .lIMM true false (some .sub),
  opRow "CS:" .lNULL .lNULL false false none,
  opRow "DAS" .lNULL .lNULL false false (some .das),
  -- 0x30 to 0x3F
  opRow "XOR" .lRM .lREG false false (some .xorf),
  opRow "XOR" .lRM .lREG true false (some .xorf),
  opRow "XOR" .lREG .lRM false false (some .xorf),
  opRow "XOR" .lREG .lRM true false (some .xorf),
  opRow "XOR" .lAL .lIMM false false (some .xorf),
  opRow "XOR" .lAX .lIMM true false (some .xorf),
  opRow "SS:" .lNULL .lNULL false false none,
  opRow "AAA" .lNULL .lNULL false false (some .aaa),
  opRow "CMP" .lRM .lREG false false (some .cmp),
  opRow "CMP" .lRM .lREG true false (some .cmp),
  opRow "CMP" .lREG .lRM false false (some .cmp),
  opRow "CMP" .lREG .lRM true false (some .cmp),
  opRow "CMP" .lAL .lIMM false false (some .cmp),
  opRow "CMP" .lAX .lIMM true false (some .cmp),
  opRow "DS:" .lNULL .lNULL false false none,
  opRow "AAS" .lNULL .lNULL false false (some .aas),
  -- 0x40 to 0x4F
  opRow "INC" .lAX .lNULL true false (some .inc),
  opRow "INC" .lCX .lNULL true false (some .inc),
  opRow "INC" .lDX .lNULL true false (some .inc),
  opRow "INC" .lBX .lNULL true false (some .inc),
  opRow "INC" .lSP .lNULL true false (some .inc),
  opRow "INC" .lBP .lNULL true false (some .inc),
  opRow "INC" .lSI .lNULL true false (some .inc),
  opRow "INC" .lDI .lNULL true false (some .inc),
  opRow "DEC" .lAX .lNULL true false (some .dec),
  opRow "DEC" .lCX .lNULL true false (some .dec),
  opRow "DEC" .lDX .lNULL true false (some .dec),
  opRow "DEC" .lBX .lNULL true false (some .dec),
  opRow "DEC" .lSP .lNULL true false (some .dec),
  opRow "DEC" .lBP .lNULL true false (some .dec),
  opRow "DEC" .lSI .lNULL true false (some .dec),
  opRow "DEC" .lDI .lNULL true false (some .dec),
  -- 0x50 to 0x5F
  opRow "PUSH" .lAX .lNULL true false (some .push),
  opRow "PUSH" .lCX .lNULL true false (some .push),
  opRow "PUSH" .lDX .lNULL true false (some .push),
  opRow "PUSH" .lBX .lNULL true false (some .push),
  opRow "PUSH" .lSP .lNULL true false (some .push),
  opRow "PUSH" .lBP .lNULL true false (some .push),
  opRow "PUSH" .lSI .lNULL true false (some .push),
  opRow "PUSH" .lDI .lNULL true false (some .push),
  opRow "POP" .lAX .lNULL true false (some .pop),
  opRow "POP" .lCX .lNULL true false (some .pop),
  opRow "POP" .lDX .lNULL true false (some .pop),
  opRow "POP" .lBX .lNULL true false (some .pop),
  opRow "POP" .lSP .lNULL true false (some .pop),
  opRow "POP" .lBP .lNULL true false (some .pop),
  opRow "POP" .lSI .lNULL true false (some .pop),
  opRow "POP" .lDI .lNULL true false (some .pop),
  -- 0x60 to 0x6F
  opRow "ILLEG." .lNULL .lNULL true false none,
  opRow "ILLEG." .lNULL .lNULL true false none,
  opRow "ILLEG." .lNULL .lNULL true false none,
  opRow "ILLEG." .lNULL .lNULL true false none,
  opRow "ILLEG." .lNULL .lNULL true false none,
  opRow "ILLEG." .lNULL .lNULL true false none,
  opRow "ILLEG." .lNULL .lNULL true false none,
  opRow "ILLEG." .lNULL .lNULL true false none,
  opRow "ILLEG." .lNULL .lNULL true false none,
  opRow "ILLEG." .lNULL .lNULL true false none,
  opRow "ILLEG." .lNULL .lNULL true false none,
  opRow "ILLEG." .lNULL .lNULL true false none,
  opRow "ILLEG." .lNULL .lNULL true false none,
  opRow "ILLEG." .lNULL .lNULL true false none,
  opRow "ILLEG." .lNULL .lNULL true false none,
  opRow "ILLEG." .lNULL .lNULL true false none,
  -- 0x70 to 0x7F
  opRow "JO" .lNULL .lIMM false false (some .jo),
  opRow "JNO" .lNULL .lIMM false false (some .jno),
  opRow "JB" .lNULL .lIMM false false (some .jb),
  opRow "JAE" .lNULL .lIMM false false (some .jae),
  opRow "JE" .lNULL .lIMM false false (some .je),
  opRow "JNE" .lNULL .lIMM false false (some .jne),
  opRow "JBE" .lNULL .lIMM false false (some .jbe),
  opRow "JA" .lNULL .lIMM false false (some .ja),
  opRow "JS" .lNULL .lIMM false false (some .js),
  opRow "JNS" .lNULL .lIMM false false (some .jns),
  opRow "JP" .lNULL .lIMM false false (some .jp),
  opRow "JNP" .lNULL .lIMM false false (some .jnp),
  opRow "JL" .lNULL .lIMM false false (some .jl),
  opRow "JGE" .lNULL .lIMM false false (some .jge),
  opRow "JLE" .lNULL .lIMM false false (some .jle),
  opRow "JG" .lNULL .lIMM false false (some .jg),
  -- 0x80 to 0x8F
  opRow "IMM" .lRM .lIMM false false (some .imm),
  opRow "IMM" .lRM .lIMM true false (some .imm),
  opRow "IMM" .lRM .lIMM false false (some .imm),
  opRow "IMM" .lRM .lIMM8 true false (some .imm),
  opRow "TEST" .lREG .lRM false false (some .testf),
  opRow "TEST" .lREG .lRM true false (some .testf),
  opRow "XCHG" .lREG .lRM false false (some .xchg),
  opRow "XCHG" .lREG .lRM true false (some .xchg),
  opRow "MOV" .lRM .lREG false false (some .mov),
  opRow "MOV" .lRM .lREG true false (some .mov),
  opRow "MOV" .lREG .lRM false false (some .mov),
  opRow "MOV" .lREG .lRM true false (some .mov),
  opRow "MOV" .lRM .lSREG true false (some .mov),
  opRow "LEA" .lREG .lRM true false (some .lea),
  opRow "MOV" .lSREG .lRM true false (some .mov),
  opRow "POP" .lRM .lNULL true false (some .pop),
  -- 0x90 to 0x9F
  opRow "NOP" .lAX .lAX true false (some .xchg),
  opRow "XCHG" .lCX .lAX true false (some .xchg),
  opRow "XCHG" .lDX .lAX true false (some .xchg),
  opRow "XCHG" .lBX .lAX true false (some .xchg),
  opRow "XCHG" .lSP .lAX true false (some .xchg),
  opRow "XCHG" .lBP .lAX true false (some .xchg),
  opRow "XCHG" .lSI .lAX true false (some .xchg),
  opRow "XCHG" .lDI .lAX true false (some .xchg),
  opRow "CBW" .lNULL .lNULL true false (some .cbw),
  opRow "CWD" .lNULL .lNULL true false (some .cwd),
  opRow "CALL" .lNULL .lSEGOFF true false (some .callfar),
  opRow "WAIT" .lNULL .lNULL false false (some .waitf),
  opRow "PUSHF" .lNULL .lNULL false false (some .pushf),
  opRow "POPF" .lNULL .lNULL false false (some .popf),
  opRow "SAHF" .lNULL .lNULL false false (some .sahf),
  opRow "LAHF" .lNULL .lNULL false false (some .lahf),
  -- 0xA0 to 0xAF
  opRow "MOV" .lAL .lADDR false false (some .mov),
  opRow "MOV" .lAX .lADDR true false (some .mov),
  opRow "MOV" .lADDR .lAL false false (some .mov),
  opRow "MOV" .lADDR .lAX true false (some .mov),
  opRow "MOVSB" .lSTRDST .lSTRSRC false true (some .mov),
  opRow "MOVSW" .lSTRDST .lSTRSRC true true (some .mov),
  opRow "CMPSB" .lSTRSRC .lSTRDST false true (some .cmp),
  opRow "CMPSW" .lSTRSRC .lSTRDST true true (some .cmp),
  opRow "TEST" .lAL .lIMM false false (some .testf),
  opRow "TEST" .lAX .lIMM true false (some .testf),
  opRow "STOSB" .lSTRDST .lAL false true (some .mov),
  opRow "STOSW" .lSTRDST .lAX true true (some .mov),
  opRow "LODSB" .lAL .lSTRSRC false true (some .mov),
  opRow "LODSW" .lAX .lSTRSRC true true (some .mov),
  opRow "SCASB" .lAL .lSTRDST false true (some .cmp),
  opRow "SCASB" .lAL .lSTRDST true true (some .cmp),
  -- 0xB0 to 0xBF
  opRow "MOV" .lAL .lIMM false false (some .mov),
  opRow "MOV" .lCL .lIMM false false (some .mov),
  opRow "MOV" .lDL .lIMM false false (some .mov),
  opRow "MOV" .lBL .lIMM false false (some .mov),
  opRow "MOV" .lAH .lIMM false false (some .mov),
  opRow "MOV" .lCH .lIMM false false (some .mov),
  opRow "MOV" .lDH .lIMM false false (some .mov),
  opRow "MOV" .lBH .lIMM false false (some .mov),
  opRow "MOV" .lAX .lIMM true false (some .mov),
  opRow "MOV" .lCX .lIMM true false (some .mov),
  opRow "MOV" .lDX .lIMM true false (some .mov),
  opRow "MOV" .lBX .lIMM true false (some .mov),
  opRow "MOV" .lSP .lIMM true false (some .mov),
  opRow "MOV" .lBP .lIMM true false (some .mov),
  opRow "MOV" .lSI .lIMM true false (some .mov),
  opRow "MOV" .lDI .lIMM true false (some .mov),
  -- 0xC0 to 0xCB (the table ends here)
  opRow "ILLEG." .lNULL .lNULL true false none,
  opRow "ILLEG." .lNULL .lNULL true false none,
  opRow "RET" .lNULL .lIMM true false (some .retnear),
  opRow "RET" .lNULL .lNULL true false (some .retnear),
  opRow "LES" .lREG .lRM true false (some .les),
  opRow "LDS" .lREG .lRM true false (some .lds),
  opRow "MOV" .lRM .lIMM false false (some .mov),
  opRow "MOV" .lRM .lIMM true false (some .mov),
  opRow "ILLEG." .lNULL .lNULL true false none,
  opRow "ILLEG." .lNULL .lNULL true false none,
  opRow "RET" .lNULL .lIMM true false (some .retfar),
  opRow "RET" .lNULL .lNULL true false (some .retfar)
]

/-- IMM group opcode table (locations/widths are placeholders, as in the
source; only the handlers matter). -/
def imm_table : List Opcode := [
  opRow "ADD" .lNULL .lNULL false false (some .add),
  opRow "OR" .lNULL .lNULL false false (some .orf),
  opRow "ADC" .lNULL .lNULL false false (some .adc),
  opRow "SBB" .lNULL .lNULL false false (some .sbb),
  opRow "AND" .lNULL .lNULL false false (some .andf),
  opRow "SUB" .lNULL .lNULL false false (some .sub),
  opRow "XOR" .lNULL .lNULL false false (some .xorf),
  opRow "CMP" .lNULL .lNULL false false (some .cmp)
]

/-- `&op_table[b]`, dereferenced: indexing past the 204 entries is the C
out-of-bounds read, modelled as an explicit error. -/
def opTableGet (b : Nat) : Except Err Opcode :=
  match op_table.get? b with
  | some o => .ok o
  | none => .error .oobTable

/-! ## ModR/M byte fields

`modrm_byte` is a union of a uint16 `value` with bitfields `rm:3, reg:3,
mod:2` from the least-significant bit up. -/

def modrmRm (v : Nat) : Nat := v % 8
def modrmReg (v : Nat) : Nat := v / 8 % 8
def modrmMod (v : Nat) : Nat := v / 64 % 4

/-- MOD_REG = 0b11. -/
def MOD_REG : Nat := 3
def MOD_DISP8 : Nat := 1
def MOD_DISP16 : Nat := 2

/-! ## C integer helpers -/

/-- The value of `(int8_t)b` (sign extension of a byte), offset into the
non-negative range by 65536 so that adding it to a Nat and reducing mod
65536 matches the C int arithmetic followed by a uint16 store. -/
def sext8as16 (b : Nat) : Nat :=
  if b % 256 < 128 then b % 256 else b % 256 + 65280

/-- The value of `(int16_t)w` offset by 65536, for the same purpose. -/
def sext16as16 (w : Nat) : Nat :=
  if w % 65536 < 32768 then w % 65536 else w % 65536

/-- `(uint16_t)(~x + 1)`: two-complement negation at 16 bits. -/
def cNeg16 (x : Nat) : Nat := (65536 - x % 65536) % 65536

/-- `(-x) & 0xF` in C int arithmetic: the low nibble of the negation. -/
def cNegNibble (x : Nat) : Nat := (65536 - x % 65536) % 16

/-! ## Operand read/write abstraction (loc_read / loc_write) -/

/-- Dereference a host pointer as a byte (`*(uint8_t*)loc->address`).
A guest physical address or null used as a host pointer is undefined
behaviour in C, modelled as `badPointer`. -/
def host_read_byte (s : St) : Ptr → Except Err Nat
  | .reg off => .ok (rbyte s off)
  | .immp off => .ok (s.immediate >>> (8 * off) % 256)
  | _ => .error .badPointer

/-- Dereference a host pointer as a word (`*(uint16_t*)loc->address`),
little-endian, possibly spanning adjacent fields of the register block. -/
def host_read_word (s : St) : Ptr → Except Err Nat
  | .reg off => .ok (rbyte s off + 256 * rbyte s (off + 1))
  | .immp off => .ok (s.immediate >>> (8 * off) % 65536)
  | _ => .error .badPointer

/-- Replace byte `off` of the 32-bit `immediate` field. -/
def immSetByte (s : St) (off v : Nat) : St :=
  if off < 4 then
    let old := s.immediate >>> (8 * off) % 256
    { s with immediate := s.immediate + (v % 256) * 2 ^ (8 * off) - old * 2 ^ (8 * off) }
  else s

/-- Store a byte through a host pointer. -/
def host_write_byte (s : St) (p : Ptr) (v : Nat) : Except Err St :=
  match p with
  | .reg off => .ok (rbyteSet s off v)
  | .immp off => .ok (immSetByte s off v)
  | _ => .error .badPointer

/-- Store a word through a host pointer (little-endian byte pair). -/
def host_write_word (s : St) (p : Ptr) (v : Nat) : Except Err St :=
  match p with
  | .reg off => .ok (rbyteSet (rbyteSet s off (v % 256)) (off + 1) (v / 256 % 256))
  | .immp off => .ok (immSetByte (immSetByte s off (v % 256)) (off + 1) (v / 256 % 256))
  | _ => .error .badPointer

/-- loc_read_byte: bus access when `virtual`, host dereference otherwise. -/
def loc_read_byte (s : St) (loc : Location) : Except Err (St × Nat) :=
  if loc.virt then
    match loc.addr with
    | .memp a => .ok (s, bus_read_byte s.mem a)
    | _ => .error .badPointer
  else do
    let v ← host_read_byte s loc.addr
    .ok (s, v)

/-- loc_read_word: a virtual word access at an odd address charges +4
cycles before the bus read. -/
def loc_read_word (s : St) (loc : Location) : Except Err (St × Nat) :=
  if loc.virt then
    match loc.addr with
    | .memp a =>
      let s := if a % 2 = 1 then addCycles s 4 else s
      .ok (s, bus_read_short s.mem a)
    | _ => .error .badPointer
  else do
    let v ← host_read_word s loc.addr
    .ok (s, v)

/-- loc_write_byte. -/
def loc_write_byte (s : St) (loc : Location) (v : Nat) : Except Err St :=
  if loc.virt then
    match loc.addr with
    | .memp a => .ok { s with mem := bus_write_byte s.mem a (v % 256) }
    | _ => .error .badPointer
  else host_write_byte s loc.addr v

/-- loc_write_word: a virtual word access at an odd address charges +4
cycles before the bus write. -/
def loc_write_word (s : St) (loc : Location) (v : Nat) : Except Err St :=
  if loc.virt then
    match loc.addr with
    | .memp a =>
      let s := if a % 2 = 1 then addCycles s 4 else s
      .ok { s with mem := bus_write_short s.mem a (v % 65536) }
    | _ => .error .badPointer
  else host_write_word s loc.addr (v % 65536)

/-- loc_read: selects byte or word width by
`op_table[cpu->opcode_byte].is_word`. -/
def loc_read (s : St) (loc : Location) : Except Err (St × Nat) := do
  let o ← opTableGet s.opcode_byte
  if o.is_word then loc_read_word s loc else loc_read_byte s loc

/-- loc_write: selects byte or word width by
`op_table[cpu->opcode_byte].is_word`. -/
def loc_write (s : St) (loc : Location) (v : Nat) : Except Err St := do
  let o ← opTableGet s.opcode_byte
  if o.is_word then loc_write_word s loc v else loc_write_byte s loc (v % 65536)

/-! ## Operand resolution (loc_set)

A literal transcription of the `loc_set` switch of the source, including
the absence of `break` after the LOC_STRSRC and LOC_STRDST cases: both
fall through to the LOC_NULL case, which overwrites only the category.
The previous contents of the location (`old`) matter exactly for the
LOC_NULL case, which assigns only `loc->type`. -/
def loc_set (s : St) (t : OpLoc) (old : Location) : Location :=
  match t with
  | .lAX | .lCX | .lDX | .lBX | .lSP | .lBP | .lSI | .lDI =>
    { ty := if t = .lAX then .accumulator else .register,
      addr := cpu8086_reg_word t.toNat, virt := false }
  | .lES | .lCS | .lSS | .lDS =>
    { ty := .segreg, addr := cpu8086_reg_word t.toNat, virt := false }
  | .lAL | .lCL | .lDL | .lBL | .lAH | .lCH | .lDH | .lBH =>
    { ty := if t = .lAL ∨ t = .lAH then .accumulator else .register,
      addr := cpu8086_reg_byte (t.toNat - OpLoc.lAL.toNat), virt := false }
  | .lIMM | .lIMM8 | .lRM =>
    { ty := if modrmMod s.modrm_byte ≠ MOD_REG then .memory
            else if s.modrm_is_segreg then .segreg else .register,
      addr := s.rm, virt := modrmMod s.modrm_byte ≠ MOD_REG }
  | .lREG | .lSREG =>
    { ty := .register, addr := s.reg, virt := false }
  | .lADDR =>
    { ty := .memory, addr := .memp s.immediate, virt := true }
  | .lSEGOFF =>
    { ty := .immediate, addr := .immp 0, virt := false }
  | .lSTRSRC =>
    -- The case body computes a DS/override-segment source address, then
    -- falls through the LOC_STRDST body (overwriting the address with
    -- ES:DI) and the LOC_NULL body (overwriting the category with NULL).
    let segsel := if s.pre_g2 ≠ 0 then 8 + (s.pre_g2 - 0x26) / 8 else 11
    let _strsrcAddr := (rword s segsel <<< 4 + s.si) % 0x100000
    { ty := .nullv, addr := .memp (s.es <<< 4 + s.di), virt := true }
  | .lSTRDST =>
    -- Falls through the LOC_NULL body: the category becomes NULL.
    { ty := .nullv, addr := .memp (s.es <<< 4 + s.di), virt := true }
  | .lNULL =>
    { old with ty := .nullv }

/-- cpu8086_reset_execution_regs: restore all decode scratch to sentinels. -/
def cpu8086_reset_execution_regs (s : St) : St :=
  { s with rep := false, pre_g1 := 0, pre_g2 := 0,
           opcode_byte := 0xFFFF, disp8_byte := 0xFFFF, disp16_byte := 0xFFFF,
           imm8_byte := 0xFFFF, imm16_byte := 0xFFFF,
           lo_segment := 0xFFFF, hi_segment := 0xFFFF,
           stage := .ready, modrm_byte := 0xFFFF }

/-! ## Instruction handlers (op_*)

Each `op_*` function below transcribes the handler of the same name. The
operand-class switch at the end of each handler, whose `default` branch is
`assert(false)`, is transcribed as a match whose fallback is
`.error .assertFail`.
-/

/-- Byte accessors of the AX union (AL is the low byte, AH the high). -/
def getAl (s : St) : Nat := s.ax % 256
def getAh (s : St) : Nat := s.ax / 256 % 256
def setAl (s : St) (v : Nat) : St := { s with ax := s.ax / 256 % 256 * 256 + v % 256 }
def setAh (s : St) (v : Nat) : St := { s with ax := v % 256 * 256 + s.ax % 256 }

/-- Advance a `uintptr_t` address by a byte count (`loc->address += 2`). -/
def Ptr.addBytes : Ptr → Nat → Ptr
  | .reg o, k => .reg (o + k)
  | .immp o, k => .immp (o + k)
  | .memp a, k => .memp (a + k)
  | .nullp, _ => .nullp

/-- The operand-class cycle switch shared verbatim by ADD, ADC, AND, OR,
SBB, SUB, XOR (3 / 9 / 16 / 4 / 17, default asserts). -/
def cyclesArithSwitch (s : St) : Except Err St :=
  match s.destination.ty, s.source.ty with
  | .register, .register => .ok (addCycles s 3)
  | .register, .memory => .ok (addCycles s 9)
  | .memory, .register => .ok (addCycles s 16)
  | .accumulator, .immediate => .ok (addCycles s 4)
  | .register, .immediate => .ok (addCycles s 4)
  | .memory, .immediate => .ok (addCycles s 17)
  | _, _ => .error .assertFail

/-- op_add. -/
def op_add (op : Opcode) (s : St) : Except Err St := do
  let (s, dest) ← loc_read s s.destination
  let (s, src) ← loc_read s s.source
  let result := dest + src
  let s ← loc_write s s.destination result
  let s := cpu8086_setpzs_flags s result op.is_word
  let s := cpu8086_setflag s FLAG_CARRY (result > mask_buffer op.is_word)
  let s := cpu8086_setflag s FLAG_AUXILIARY (dest % 16 + src % 16 > 0xF)
  let s := cpu8086_setflag s FLAG_OVERFLOW
    ((result ^^^ dest) &&& (result ^^^ src) &&& 2 ^ sign_bit op.is_word ≠ 0)
  cyclesArithSwitch s

/-- op_adc: the source operand adds the carry flag (uint16 wrap). -/
def op_adc (op : Opcode) (s : St) : Except Err St := do
  let (s, dest) ← loc_read s s.destination
  let (s, src0) ← loc_read s s.source
  let src := (src0 + (if cpu8086_getflag s FLAG_CARRY then 1 else 0)) % 65536
  let result := dest + src
  let s ← loc_write s s.destination result
  let s := cpu8086_setpzs_flags s result op.is_word
  let s := cpu8086_setflag s FLAG_CARRY (result > mask_buffer op.is_word)
  let s := cpu8086_setflag s FLAG_AUXILIARY (dest % 16 + src % 16 > 0xF)
  let s := cpu8086_setflag s FLAG_OVERFLOW
    ((result ^^^ dest) &&& (result ^^^ src) &&& 2 ^ sign_bit op.is_word ≠ 0)
  cyclesArithSwitch s

/-- op_sub: the source is negated at 16 bits and added. -/
def op_sub (op : Opcode) (s : St) : Except Err St := do
  let (s, dest) ← loc_read s s.destination
  let (s, src0) ← loc_read s s.source
  let src := cNeg16 src0
  let result := dest + src
  let s ← loc_write s s.destination result
  let s := cpu8086_setpzs_flags s result op.is_word
  let s := cpu8086_setflag s FLAG_CARRY (result > mask_buffer op.is_word)
  let s := cpu8086_setflag s FLAG_AUXILIARY (dest % 16 < cNegNibble src)
  let s := cpu8086_setflag s FLAG_OVERFLOW
    ((result ^^^ dest) &&& (result ^^^ src) &&& 2 ^ sign_bit op.is_word ≠ 0)
  cyclesArithSwitch s

/-- op_sbb: negate (source + carry) at 16 bits and add. -/
def op_sbb (op : Opcode) (s : St) : Except Err St := do
  let (s, dest) ← loc_read s s.destination
  let (s, src0) ← loc_read s s.source
  let src := cNeg16 (src0 + (if cpu8086_getflag s FLAG_CARRY then 1 else 0))
  let result := dest + src
  let s ← loc_write s s.destination result
  let s := cpu8086_setpzs_flags s result op.is_word
  let s := cpu8086_setflag s FLAG_CARRY (result > mask_buffer op.is_word)
  let s := cpu8086_setflag s FLAG_AUXILIARY (dest % 16 < cNegNibble src)
  let s := cpu8086_setflag s FLAG_OVERFLOW
    ((result ^^^ dest) &&& (result ^^^ src) &&& 2 ^ sign_bit op.is_word ≠ 0)
  cyclesArithSwitch s

/-- op_cmp: subtract without write-back; its cycle switch also covers the
string forms, and the SCAS case falls through into the default assert. -/
def op_cmp (op : Opcode) (s : St) : Except Err St := do
  let (s, dest) ← loc_read s s.destination
  let (s, src0) ← loc_read s s.source
  let src := cNeg16 src0
  let result := dest + src
  let s := cpu8086_setpzs_flags s result op.is_word
  let s := cpu8086_setflag s FLAG_CARRY (result > mask_buffer op.is_word)
  let s := cpu8086_setflag s FLAG_AUXILIARY (dest % 16 < cNegNibble src)
  let s := cpu8086_setflag s FLAG_OVERFLOW
    ((result ^^^ dest) &&& (result ^^^ src) &&& 2 ^ sign_bit op.is_word ≠ 0)
  match s.destination.ty, s.source.ty with
  | .register, .register => .ok (addCycles s 3)
  | .register, .memory => .ok (addCycles s 9)
  | .memory, .register => .ok (addCycles s 9)
  | .accumulator, .immediate => .ok (addCycles s 4)
  | .register, .immediate => .ok (addCycles s 4)
  | .memory, .immediate => .ok (addCycles s 10)
  | .stringv, .stringv => .ok (addCycles s 22)
  | .accumulator, .stringv => .error .assertFail -- charges 15 then falls into the assert
  | _, _ => .error .assertFail

/-- op_and. -/
def op_and (op : Opcode) (s : St) : Except Err St := do
  let (s, dest) ← loc_read s s.destination
  let (s, src) ← loc_read s s.source
  let result := dest &&& src
  let s ← loc_write s s.destination result
  let s := cpu8086_setpzs_flags s result op.is_word
  let s := cpu8086_setflag s FLAG_CARRY false
  let s := cpu8086_setflag s FLAG_AUXILIARY false
  let s := cpu8086_setflag s FLAG_OVERFLOW false
  cyclesArithSwitch s

/-- op_or. -/
def op_or (op : Opcode) (s : St) : Except Err St := do
  let (s, dest) ← loc_read s s.destination
  let (s, src) ← loc_read s s.source
  let result := dest ||| src
  let s ← loc_write s s.destination result
  let s := cpu8086_setpzs_flags s result op.is_word
  let s := cpu8086_setflag s FLAG_CARRY false
  let s := cpu8086_setflag s FLAG_AUXILIARY false
  let s := cpu8086_setflag s FLAG_OVERFLOW false
  cyclesArithSwitch s

/-- op_xor. -/
def op_xor (op : Opcode) (s : St) : Except Err St := do
  let (s, dest) ← loc_read s s.destination
  let (s, src) ← loc_read s s.source
  let result := dest ^^^ src
  let s ← loc_write s s.destination result
  let s := cpu8086_setpzs_flags s result op.is_word
  let s := cpu8086_setflag s FLAG_CARRY false
  let s := cpu8086_setflag s FLAG_AUXILIARY false
  let s := cpu8086_setflag s FLAG_OVERFLOW false
  cyclesArithSwitch s

/-- op_test: AND without write-back; its own cycle switch. -/
def op_test (op : Opcode) (s : St) : Except Err St := do
  let (s, dest) ← loc_read s s.destination
  let (s, src) ← loc_read s s.source
  let result := dest &&& src
  let s := cpu8086_setpzs_flags s result op.is_word
  let s := cpu8086_setflag s FLAG_CARRY false
  let s := cpu8086_setflag s FLAG_AUXILIARY false
  let s := cpu8086_setflag s FLAG_OVERFLOW false
  match s.destination.ty, s.source.ty with
  | .register, .register => .ok (addCycles s 3)
  | .register, .memory => .ok (addCycles s 9)
  | .accumulator, .immediate => .ok (addCycles s 4)
  | .register, .immediate => .ok (addCycles s 5)
  | .memory, .immediate => .ok (addCycles s 11)
  | _, _ => .error .assertFail

/-- op_inc. -/
def op_inc (op : Opcode) (s : St) : Except Err St := do
  let (s, dest) ← loc_read s s.destination
  let result := dest + 1
  let s ← loc_write s s.destination result
  let s := cpu8086_setpzs_flags s result op.is_word
  let s := cpu8086_setflag s FLAG_AUXILIARY (dest % 16 + 1 > 0xF)
  let s := cpu8086_setflag s FLAG_OVERFLOW
    ((result ^^^ dest) &&& (result ^^^ 1) &&& 2 ^ sign_bit op.is_word ≠ 0)
  match s.destination.ty with
  | .accumulator => .ok (addCycles s (if op.is_word then 2 else 3))
  | .register => .ok (addCycles s (if op.is_word then 2 else 3))
  | .memory => .ok (addCycles s 15)
  | _ => .error .assertFail

/-- op_dec: `result = dest - 1` in C unsigned arithmetic; on `dest = 0`
this wraps to UINT_MAX, of which the uint16 store keeps 0xFFFF — the
embedding adds 0xFFFF, identical modulo 2^16 and in all flag positions
used (the OVERFLOW operand is the constant 0xFFFF in the source). -/
def op_dec (op : Opcode) (s : St) : Except Err St := do
  let (s, dest) ← loc_read s s.destination
  let result := dest + 0xFFFF
  let s ← loc_write s s.destination result
  let s := cpu8086_setpzs_flags s result op.is_word
  let s := cpu8086_setflag s FLAG_AUXILIARY (dest % 16 < 1)
  let s := cpu8086_setflag s FLAG_OVERFLOW
    ((result ^^^ dest) &&& (result ^^^ 0xFFFF) &&& 2 ^ sign_bit op.is_word ≠ 0)
  match s.destination.ty with
  | .accumulator => .ok (addCycles s (if op.is_word then 2 else 3))
  | .register => .ok (addCycles s (if op.is_word then 2 else 3))
  | .memory => .ok (addCycles s 15)
  | _ => .error .assertFail

/-- op_imm: dispatch through `imm_table` on the ModR/M reg field. -/
def op_imm (op : Opcode) (s : St) : Except Err St :=
  match modrmReg s.modrm_byte with
  | 0 => op_add op s
  | 1 => op_or op s
  | 2 => op_adc op s
  | 3 => op_sbb op s
  | 4 => op_and op s
  | 5 => op_sub op s
  | 6 => op_xor op s
  | _ => op_cmp op s

/-- Shared body of the sixteen conditional jumps: read the signed 8-bit
offset, jump relative to `current_ip` when the predicate holds (+12
cycles), always +4 cycles. -/
def condJumpBody (s : St) (taken : St → Bool) : Except Err St := do
  let (s, off) ← loc_read s s.source
  let s :=
    if taken s then
      addCycles (cpu8086_jump s s.cs (s.current_ip + sext8as16 off)) 12
    else s
  .ok (addCycles s 4)

def op_jo (_ : Opcode) (s : St) : Except Err St :=
  condJumpBody s (fun s => cpu8086_getflag s FLAG_OVERFLOW)
def op_jno (_ : Opcode) (s : St) : Except Err St :=
  condJumpBody s (fun s => !cpu8086_getflag s FLAG_OVERFLOW)
def op_jb (_ : Opcode) (s : St) : Except Err St :=
  condJumpBody s (fun s => cpu8086_getflag s FLAG_CARRY)
def op_jae (_ : Opcode) (s : St) : Except Err St :=
  condJumpBody s (fun s => !cpu8086_getflag s FLAG_CARRY)
def op_je (_ : Opcode) (s : St) : Except Err St :=
  condJumpBody s (fun s => cpu8086_getflag s FLAG_ZERO)
def op_jne (_ : Opcode) (s : St) : Except Err St :=
  condJumpBody s (fun s => !cpu8086_getflag s FLAG_ZERO)
def op_jbe (_ : Opcode) (s : St) : Except Err St :=
  condJumpBody s (fun s => cpu8086_getflag s FLAG_CARRY || cpu8086_getflag s FLAG_ZERO)
def op_ja (_ : Opcode) (s : St) : Except Err St :=
  condJumpBody s (fun s => !cpu8086_getflag s FLAG_CARRY && !cpu8086_getflag s FLAG_ZERO)
def op_js (_ : Opcode) (s : St) : Except Err St :=
  condJumpBody s (fun s => cpu8086_getflag s FLAG_SIGN)
def op_jns (_ : Opcode) (s : St) : Except Err St :=
  condJumpBody s (fun s => !cpu8086_getflag s FLAG_SIGN)
def op_jp (_ : Opcode) (s : St) : Except Err St :=
  condJumpBody s (fun s => cpu8086_getflag s FLAG_PARITY)
def op_jnp (_ : Opcode) (s : St) : Except Err St :=
  condJumpBody s (fun s => !cpu8086_getflag s FLAG_PARITY)
def op_jl (_ : Opcode) (s : St) : Except Err St :=
  condJumpBody s (fun s => cpu8086_getflag s FLAG_SIGN ≠ cpu8086_getflag s FLAG_OVERFLOW)
def op_jge (_ : Opcode) (s : St) : Except Err St :=
  condJumpBody s (fun s => cpu8086_getflag s FLAG_SIGN = cpu8086_getflag s FLAG_OVERFLOW)
def op_jle (_ : Opcode) (s : St) : Except Err St :=
  condJumpBody s (fun s =>
    cpu8086_getflag s FLAG_SIGN ≠ cpu8086_getflag s FLAG_OVERFLOW
    || cpu8086_getflag s FLAG_ZERO)
def op_jg (_ : Opcode) (s : St) : Except Err St :=
  condJumpBody s (fun s =>
    cpu8086_getflag s FLAG_SIGN = cpu8086_getflag s FLAG_OVERFLOW
    && !cpu8086_getflag s FLAG_ZERO)

/-- op_mov: copy source to destination; cycle switch over the operand
classes, including the string forms. -/
def op_mov (_ : Opcode) (s : St) : Except Err St := do
  let (s, src) ← loc_read s s.source
  let s ← loc_write s s.destination src
  match s.destination.ty, s.source.ty with
  | .memory, .accumulator => .ok (addCycles s 10)
  | .accumulator, .memory => .ok (addCycles s 10)
  | .register, .register => .ok (addCycles s 2)
  | .segreg, .register => .ok (addCycles s 2)
  | .register, .segreg => .ok (addCycles s 2)
  | .register, .memory => .ok (addCycles s 8)
  | .segreg, .memory => .ok (addCycles s 8)
  | .memory, .register => .ok (addCycles s 9)
  | .memory, .segreg => .ok (addCycles s 9)
  | .register, .immediate => .ok (addCycles s 4)
  | .accumulator, .immediate => .ok (addCycles s 4)
  | .memory, .immediate => .ok (addCycles s 10)
  | .stringv, .stringv => .ok (addCycles s (if s.rep then 17 else 18))
  | .stringv, .accumulator => .ok (addCycles s (if s.rep then 10 else 11))
  | .accumulator, .stringv => .ok (addCycles s (if s.rep then 13 else 12))
  | _, _ => .error .assertFail

/-- op_xchg. -/
def op_xchg (_ : Opcode) (s : St) : Except Err St := do
  let (s, dest) ← loc_read s s.destination
  let (s, src) ← loc_read s s.source
  let s ← loc_write s s.destination src
  let s ← loc_write s s.source dest
  match s.destination.ty, s.source.ty with
  | .accumulator, .register => .ok (addCycles s 3)
  | .register, .register => .ok (addCycles s 4)
  | .memory, .register => .ok (addCycles s 17)
  | _, _ => .error .assertFail

/-- op_push. -/
def op_push (_ : Opcode) (s : St) : Except Err St := do
  let (s, dest) ← loc_read s s.destination
  let s := cpu8086_push s dest
  match s.destination.ty with
  | .accumulator => .ok (addCycles s 11)
  | .register => .ok (addCycles s 11)
  | .segreg => .ok (addCycles s 10)
  | .memory => .ok (addCycles s 16)
  | _ => .error .assertFail

/-- op_pop. -/
def op_pop (_ : Opcode) (s : St) : Except Err St := do
  let (s, result) := cpu8086_pop s
  let s ← loc_write s s.destination result
  match s.destination.ty with
  | .accumulator => .ok (addCycles s 8)
  | .register => .ok (addCycles s 8)
  | .segreg => .ok (addCycles s 8)
  | .memory => .ok (addCycles s 17)
  | _ => .error .assertFail

/-- op_pushf. -/
def op_pushf (_ : Opcode) (s : St) : Except Err St :=
  .ok (addCycles (cpu8086_push s s.flags) 10)

/-- op_popf. -/
def op_popf (_ : Opcode) (s : St) : Except Err St :=
  let (s, w) := cpu8086_pop s
  .ok (addCycles { s with flags := w } 8)

/-- op_sahf: store AH bits into the five low flags. -/
def op_sahf (_ : Opcode) (s : St) : Except Err St :=
  let s := cpu8086_setflag s FLAG_CARRY (getAh s &&& FLAG_CARRY ≠ 0)
  let s := cpu8086_setflag s FLAG_PARITY (getAh s &&& FLAG_PARITY ≠ 0)
  let s := cpu8086_setflag s FLAG_AUXILIARY (getAh s &&& FLAG_AUXILIARY ≠ 0)
  let s := cpu8086_setflag s FLAG_ZERO (getAh s &&& FLAG_ZERO ≠ 0)
  let s := cpu8086_setflag s FLAG_SIGN (getAh s &&& FLAG_SIGN ≠ 0)
  .ok (addCycles s 4)

/-- op_lahf: AH receives the low byte of FLAGS. -/
def op_lahf (_ : Opcode) (s : St) : Except Err St :=
  .ok (addCycles (setAh s (s.flags % 256)) 4)

/-- op_cbw: sign-extend AL into AH. -/
def op_cbw (_ : Opcode) (s : St) : Except Err St :=
  .ok (addCycles (setAh s (0xFF * (getAl s >>> 7 &&& 1))) 2)

/-- op_cwd: sign-extend AX into DX. -/
def op_cwd (_ : Opcode) (s : St) : Except Err St :=
  .ok (addCycles { s with dx := 0xFFFF * (s.ax >>> 15 &&& 1) } 5)

/-- op_wait: the stall itself is handled in cpu8086_clock. -/
def op_wait (_ : Opcode) (s : St) : Except Err St :=
  .ok (addCycles s 3)

/-- op_lea: write the address of the RM operand (truncated to the uint16
parameter of loc_write) into the destination. -/
def op_lea (_ : Opcode) (s : St) : Except Err St := do
  if !s.source.virt then .error .assertFail
  else
    match s.source.addr with
    | .memp a => do
      let s ← loc_write s s.destination a
      .ok (addCycles s 2)
    | _ => .error .badPointer

/-- op_lds: word at the RM address into the destination register, word at
address+2 into... `cpu->es` (the source assigns ES, not DS). -/
def op_lds (_ : Opcode) (s : St) : Except Err St := do
  if !s.source.virt then .error .assertFail
  else do
    let (s, offset) ← loc_read s s.source
    let s := { s with source := { s.source with addr := s.source.addr.addBytes 2 } }
    let (s, segment) ← loc_read s s.source
    let s ← loc_write s s.destination offset
    let s := { s with es := segment % 65536 }
    .ok (addCycles s 16)

/-- op_les: word at the RM address into the destination register, word at
address+2 into ES. -/
def op_les (_ : Opcode) (s : St) : Except Err St := do
  if !s.source.virt then .error .assertFail
  else do
    let (s, offset) ← loc_read s s.source
    let s := { s with source := { s.source with addr := s.source.addr.addBytes 2 } }
    let (s, segment) ← loc_read s s.source
    let s ← loc_write s s.destination offset
    let s := { s with es := segment % 65536 }
    .ok (addCycles s 16)

/-- op_callfar: push CS, push current_ip, then read the new IP from the
low word of the packed immediate and the new CS from the high word, and
jump. -/
def op_callfar (_ : Opcode) (s : St) : Except Err St := do
  let s := cpu8086_push s s.cs
  let s := cpu8086_push s s.current_ip
  let (s, ip) ← loc_read s s.source
  let s := { s with source := { s.source with addr := s.source.addr.addBytes 2 } }
  let (s, cs) ← loc_read s s.source
  let s := cpu8086_jump s cs ip
  match s.source.ty with
  | .immediate => .ok (addCycles s 28)
  | _ => .error .assertFail

/-- op_retnear. -/
def op_retnear (_ : Opcode) (s : St) : Except Err St := do
  let (s, ip) := cpu8086_pop s
  let s := cpu8086_jump s s.cs ip
  match s.source.ty with
  | .nullv => .ok (addCycles s 8)
  | .immediate => do
    let s := addCycles s 12
    let (s, v) ← loc_read s s.source
    .ok { s with sp := (s.sp + v) % 65536 }
  | _ => .error .assertFail

/-- op_retfar. -/
def op_retfar (_ : Opcode) (s : St) : Except Err St := do
  let (s, ip) := cpu8086_pop s
  let (s, cs) := cpu8086_pop s
  let s := cpu8086_jump s cs ip
  match s.source.ty with
  | .nullv => .ok (addCycles s 18)
  | .immediate => do
    let s := addCycles s 17
    let (s, v) ← loc_read s s.source
    .ok { s with sp := (s.sp + v) % 65536 }
  | _ => .error .assertFail

/-- op_aaa. -/
def op_aaa (_ : Opcode) (s : St) : Except Err St :=
  let old_al := getAl s
  let (s, added) :=
    if getAl s % 16 > 9 ∨ cpu8086_getflag s FLAG_AUXILIARY then
      let s := setAh s (getAh s + 1)
      let s := setAl s (getAl s + 6)
      let s := cpu8086_setflag s FLAG_AUXILIARY true
      (cpu8086_setflag s FLAG_CARRY true, 6)
    else
      let s := cpu8086_setflag s FLAG_AUXILIARY false
      (cpu8086_setflag s FLAG_CARRY false, 0)
  let s := setAl s (getAl s &&& 0xF)
  let s := cpu8086_setpzs_flags s (getAl s) false
  let s := cpu8086_setflag s FLAG_OVERFLOW
    ((getAl s ^^^ old_al) &&& (getAl s ^^^ added) &&& 0x80 ≠ 0)
  .ok (addCycles s 4)

/-- op_aas: the `added` value `~6 + 1` stored in a uint16 is 0xFFFA. -/
def op_aas (_ : Opcode) (s : St) : Except Err St :=
  let old_al := getAl s
  let (s, added) :=
    if getAl s % 16 > 9 ∨ cpu8086_getflag s FLAG_AUXILIARY then
      let s := setAh s (getAh s + 255)
      let s := setAl s (getAl s + 0xFFFA)
      let s := cpu8086_setflag s FLAG_AUXILIARY true
      (cpu8086_setflag s FLAG_CARRY true, 0xFFFA)
    else
      let s := cpu8086_setflag s FLAG_AUXILIARY false
      (cpu8086_setflag s FLAG_CARRY false, 0)
  let s := setAl s (getAl s &&& 0xF)
  let s := cpu8086_setpzs_flags s (getAl s) false
  let s := cpu8086_setflag s FLAG_OVERFLOW
    ((getAl s ^^^ old_al) &&& (getAl s ^^^ added) &&& 0x80 ≠ 0)
  .ok (addCycles s 4)

/-- op_daa. -/
def op_daa (_ : Opcode) (s : St) : Except Err St :=
  let old_al := getAl s
  let old_af := cpu8086_getflag s FLAG_AUXILIARY
  let (s, added) :=
    if getAl s % 16 > 9 ∨ old_af then (cpu8086_setflag s FLAG_AUXILIARY true, 6)
    else (cpu8086_setflag s FLAG_AUXILIARY false, 0)
  let (s, added) :=
    if old_al > 0x99 + (if old_af then 6 else 0) ∨ cpu8086_getflag s FLAG_CARRY then
      (cpu8086_setflag s FLAG_CARRY true, added + 0x60)
    else (cpu8086_setflag s FLAG_CARRY false, added)
  let s := setAl s (getAl s + added)
  let s := cpu8086_setpzs_flags s (getAl s) false
  let s := cpu8086_setflag s FLAG_OVERFLOW
    ((getAl s ^^^ old_al) &&& (getAl s ^^^ added) &&& 0x80 ≠ 0)
  .ok (addCycles s 4)

/-- op_das: like DAA with the accumulated `added` negated at 8 bits before
the final addition. -/
def op_das (_ : Opcode) (s : St) : Except Err St :=
  let old_al := getAl s
  let old_af := cpu8086_getflag s FLAG_AUXILIARY
  let (s, added) :=
    if getAl s % 16 > 9 ∨ old_af then (cpu8086_setflag s FLAG_AUXILIARY true, 6)
    else (cpu8086_setflag s FLAG_AUXILIARY false, 0)
  let (s, added) :=
    if getAl s > 0x99 + (if old_af then 6 else 0) ∨ cpu8086_getflag s FLAG_CARRY then
      (cpu8086_setflag s FLAG_CARRY true, added + 0x60)
    else (cpu8086_setflag s FLAG_CARRY false, added)
  let added := (256 - added % 256) % 256
  let s := setAl s (getAl s + added)
  let s := cpu8086_setpzs_flags s (getAl s) false
  let s := cpu8086_setflag s FLAG_OVERFLOW
    ((getAl s ^^^ old_al) &&& (getAl s ^^^ added) &&& 0x80 ≠ 0)
  .ok (addCycles s 4)

/-- Run the handler that an `OpFunc` value names. -/
def runFunc (f : OpFunc) (op : Opcode) (s : St) : Except Err St :=
  match f with
  | .aaa => op_aaa op s
  | .aas => op_aas op s
  | .adc => op_adc op s
  | .add => op_add op s
  | .andf => op_and op s
  | .callfar => op_callfar op s
  | .cbw => op_cbw op s
  | .cmp => op_cmp op s
  | .cwd => op_cwd op s
  | .daa => op_daa op s
  | .das => op_das op s
  | .dec => op_dec op s
  | .imm => op_imm op s
  | .inc => op_inc op s
  | .ja => op_ja op s
  | .jae => op_jae op s
  | .jb => op_jb op s
  | .jbe => op_jbe op s
  | .je => op_je op s
  | .jg => op_jg op s
  | .jge => op_jge op s
  | .jl => op_jl op s
  | .jle => op_jle op s
  | .jne => op_jne op s
  | .jno => op_jno op s
  | .jnp => op_jnp op s
  | .jns => op_jns op s
  | .jo => op_jo op s
  | .jp => op_jp op s
  | .js => op_js op s
  | .lahf => op_lahf op s
  | .lea => op_lea op s
  | .lds => op_lds op s
  | .les => op_les op s
  | .mov => op_mov op s
  | .orf => op_or op s
  | .pop => op_pop op s
  | .popf => op_popf op s
  | .push => op_push op s
  | .pushf => op_pushf op s
  | .retnear => op_retnear op s
  | .retfar => op_retfar op s
  | .sahf => op_sahf op s
  | .sbb => op_sbb op s
  | .sub => op_sub op s
  | .testf => op_test op s
  | .waitf => op_wait op s
  | .xchg => op_xchg op s
  | .xorf => op_xor op s

/-! ## The clock (cpu8086_clock) -/

/-- `(uint8_t)((b - 1) % 4)` in C: the operands promote to int, `%` is a
truncated remainder, and the result is stored into the uint8 field — so a
countdown of 0 becomes `(0-1) % 4 = -1`, stored as 255. -/
def cDecMod4 (b : Nat) : Nat :=
  if b % 256 = 0 then 255 else (b % 256 - 1) % 4

/-- The BIU block at the top of cpu8086_clock: when the queue is not full
(empty, or write index differs from read index), fetch a word once the
countdown reaches zero and then step the countdown. -/
def biu_step (s : St) : St :=
  if s.mt ∨ s.q_w ≠ s.q_r then
    let s :=
      if s.biu_prefetch_cycles = 0 then
        let w := bus_read_short s.mem (s.cs <<< 4 + s.ip)
        let s := qSet s s.q_w w
        let s := { s with q_w := (s.q_w + 1) % 3, mt := false }
        if s.ip % 2 = 1 then { s with hl := true, ip := (s.ip + 1) % 65536 }
        else { s with ip := (s.ip + 2) % 65536 }
      else s
    { s with biu_prefetch_cycles := cDecMod4 s.biu_prefetch_cycles }
  else s

/-- SI/DI advance per repeat iteration: `delta_table[is_word][DF]`
(±1 for bytes, ±2 for words), as a Nat addend modulo 2^16. -/
def strDelta (is_word df : Bool) : Nat :=
  match is_word, df with
  | false, false => 1
  | false, true => 65535
  | true, false => 2
  | true, true => 65534

/-- The `exec_op` repeat loop of the EXECUTING stage: while CX is nonzero,
decrement CX, run the handler, advance SI and DI. The fuel bound covers
the full 16-bit CX range; no handler modifies CX, so the fuel cannot run
out from a reachable state. -/
def exec_rep_loop (f : OpFunc) (op : Opcode) : Nat → St → Except Err St
  | 0, _ => .error .fuelOut
  | fuel + 1, s =>
    if s.cx = 0 then .ok s
    else do
      let s := { s with cx := s.cx - 1 }
      let s ← runFunc f op s
      let d := strDelta op.is_word (cpu8086_getflag s FLAG_DIRECTION)
      exec_rep_loop f op fuel
        { s with si := (s.si + d) % 65536, di := (s.di + d) % 65536 }

/-- The EXECUTING stage: assert a handler exists, charge 9 cycles for a
repeat dispatch, run the handler (or the full repeat loop), and for a
non-repeated instruction subtract one cycle (uint8 wrap). -/
def stage_executing (s : St) : Except Err St := do
  let op ← opTableGet s.opcode_byte
  match op.func with
  | none => .error .assertFail
  | some f =>
    let s := if s.rep then addCycles s 9 else s
    if s.rep then exec_rep_loop f op 65536 s
    else do
      let s ← runFunc f op s
      .ok { s with cycles := (s.cycles + 255) % 256 }

/-- The DECODE_LOC stage: resolve both operand descriptors and fall
through to EXECUTING. -/
def stage_decode_loc (s : St) : Except Err St := do
  let op ← opTableGet s.opcode_byte
  let s := { s with destination := loc_set s op.destination s.destination }
  let s := { s with source := loc_set s op.source s.source }
  stage_executing { s with stage := .executing }

/-- The FETCH_IMM stage: dequeue the immediate byte(s), sign-extending the
IMM8 form, compose `immediate`, and fall through to DECODE_LOC. Each
dequeue is guarded by an emptiness check that ends the tick. -/
def stage_fetch_imm (s : St) : Except Err St := do
  let op ← opTableGet s.opcode_byte
  if s.imm8_byte = 0xFFFF ∧ s.mt then .ok s else
  let s :=
    if s.imm8_byte = 0xFFFF then
      let p := cpu8086_prefetch_dequeue s
      { p.1 with imm8_byte := p.2 }
    else s
  if op.is_word ∧ s.imm16_byte = 0xFFFF ∧ op.source ≠ .lIMM8 ∧ s.mt then .ok s else
  let s :=
    if op.is_word ∧ s.imm16_byte = 0xFFFF then
      if op.source = .lIMM8 then
        { s with imm16_byte := 0xFF * (s.imm8_byte >>> 7 &&& 1) }
      else
        let p := cpu8086_prefetch_dequeue s
        { p.1 with imm16_byte := p.2 }
    else s
  let s := { s with immediate :=
    if op.is_word then s.imm16_byte <<< 8 ||| s.imm8_byte else s.imm8_byte }
  stage_decode_loc { s with stage := .decode_loc }

/-- The FETCH_ADDRESS stage: dequeue two address bytes into the immediate
scratch, then for a SEGOFF source two further segment bytes, and compose
`immediate` — for SEGOFF as
`(imm16 << 24) | (imm8 << 16) | (hi_segment << 8) | lo_segment`,
i.e. the two offset bytes in the high half and the two segment bytes in
the low half. -/
def stage_fetch_address (s : St) : Except Err St := do
  let op ← opTableGet s.opcode_byte
  if s.imm8_byte = 0xFFFF ∧ s.mt then .ok s else
  let s :=
    if s.imm8_byte = 0xFFFF then
      let p := cpu8086_prefetch_dequeue s
      { p.1 with imm8_byte := p.2 }
    else s
  if s.imm16_byte = 0xFFFF ∧ s.mt then .ok s else
  let s :=
    if s.imm16_byte = 0xFFFF then
      let p := cpu8086_prefetch_dequeue s
      { p.1 with imm16_byte := p.2 }
    else s
  if op.source = .lSEGOFF ∧ s.lo_segment = 0xFFFF ∧ s.mt then .ok s else
  let s :=
    if op.source = .lSEGOFF ∧ s.lo_segment = 0xFFFF then
      let p := cpu8086_prefetch_dequeue s
      { p.1 with lo_segment := p.2 }
    else s
  if op.source = .lSEGOFF ∧ s.hi_segment = 0xFFFF ∧ s.mt then .ok s else
  let s :=
    if op.source = .lSEGOFF ∧ s.hi_segment = 0xFFFF then
      let p := cpu8086_prefetch_dequeue s
      { p.1 with hi_segment := p.2 }
    else s
  let s := { s with immediate :=
    if op.source = OpLoc.lSEGOFF then
      s.imm16_byte <<< 24 ||| s.imm8_byte <<< 16 ||| s.hi_segment <<< 8 ||| s.lo_segment
    else s.imm16_byte <<< 8 ||| s.imm8_byte }
  stage_decode_loc { s with stage := .decode_loc }

/-- The FETCH_MODRM stage: dequeue the ModR/M byte and its displacement
byte(s), compute the reg-side pointer and the rm-side pointer or effective
address (with EA cycle charges, SS defaults for BP modes, the G2 override,
and 20-bit linearisation), then advance. In the register (`mod=11`) case
the word-width rm uses the `reg` field of the ModR/M byte, as the source
does. A signed displacement is added modulo 2^16 (the `(int16_t)` cast of
the source changes nothing modulo 2^16). -/
def stage_fetch_modrm (s : St) : Except Err St := do
  let op ← opTableGet s.opcode_byte
  if s.mt then .ok s else
  let s :=
    if s.modrm_byte = 0xFFFF then
      let p := cpu8086_prefetch_dequeue s
      { p.1 with modrm_byte := p.2 }
    else s
  let is_disp16 := (modrmMod s.modrm_byte = 0 ∧ modrmRm s.modrm_byte = 6)
                 ∨ modrmMod s.modrm_byte = MOD_DISP16
  if (modrmMod s.modrm_byte = MOD_DISP8 ∨ is_disp16) ∧ s.disp8_byte = 0xFFFF ∧ s.mt
  then .ok s else
  let s :=
    if (modrmMod s.modrm_byte = MOD_DISP8 ∨ is_disp16) ∧ s.disp8_byte = 0xFFFF then
      let p := cpu8086_prefetch_dequeue s
      { p.1 with disp8_byte := p.2 }
    else s
  if is_disp16 ∧ s.disp16_byte = 0xFFFF ∧ s.mt then .ok s else
  let s :=
    if is_disp16 ∧ s.disp16_byte = 0xFFFF then
      let p := cpu8086_prefetch_dequeue s
      { p.1 with disp16_byte := p.2 }
    else s
  let segf := op.destination = .lSREG ∨ op.source = .lSREG
  let s := { s with modrm_is_segreg := segf }
  let s := { s with reg :=
    if op.is_word then cpu8086_reg_word (modrmReg s.modrm_byte + if segf then 8 else 0)
    else cpu8086_reg_byte (modrmReg s.modrm_byte) }
  let s :=
    if modrmMod s.modrm_byte = MOD_REG then
      { s with rm :=
        if op.is_word then cpu8086_reg_word (modrmReg s.modrm_byte)
        else cpu8086_reg_byte (modrmRm s.modrm_byte) }
    else
      let (off, segsel, cyc) :=
        match modrmRm s.modrm_byte with
        | 0 => ((s.bx + s.si) % 65536, 11, 7)
        | 1 => ((s.bx + s.di) % 65536, 11, 8)
        | 2 => ((s.bp + s.si) % 65536, 10, 8)
        | 3 => ((s.bp + s.di) % 65536, 10, 7)
        | 4 => (s.si, 11, 5)
        | 5 => (s.di, 11, 5)
        | 6 => if modrmMod s.modrm_byte ≠ 0 then (s.bp, 10, 5)
               else (s.disp16_byte <<< 8 ||| s.disp8_byte, 11, 6)
        | _ => (s.bx, 11, 5)
      let s := addCycles s cyc
      let segsel := if s.pre_g2 ≠ 0 then 8 + (s.pre_g2 - 0x26) / 8 else segsel
      let (off, s) :=
        if modrmMod s.modrm_byte = MOD_DISP16 then
          ((off + (s.disp16_byte <<< 8 ||| s.disp8_byte)) % 65536, addCycles s 4)
        else if modrmMod s.modrm_byte = MOD_DISP8 then
          ((off + sext8as16 s.disp8_byte) % 65536, addCycles s 4)
        else (off, s)
      { s with rm := .memp ((rword s segsel <<< 4 + off) % 0x100000) }
  if op.source = .lIMM ∨ op.source = .lIMM8 then
    stage_fetch_imm { s with stage := .fetch_imm }
  else if op.destination = .lADDR ∨ op.source = .lADDR ∨ op.source = .lSEGOFF then
    stage_fetch_address { s with stage := .fetch_address }
  else stage_decode_loc { s with stage := .decode_loc }

/-- The READY stage: dequeue a byte; prefixes record themselves and end
the tick with one extra cycle; any other byte becomes the opcode and is
dispatched through the root table, clearing a pending repeat when the
opcode is not a string primitive. -/
def stage_ready (s : St) : Except Err St := do
  let p := cpu8086_prefetch_dequeue s
  let s := p.1
  let byte := p.2
  if byte = 0xF0 then .ok { s with cycles := 1 }
  else if byte = 0xF2 ∨ byte = 0xF3 then
    .ok { s with rep := true, pre_g1 := byte, cycles := 1 }
  else if byte = 0x26 ∨ byte = 0x2E ∨ byte = 0x36 ∨ byte = 0x3E then
    .ok { s with pre_g2 := byte, cycles := 1 }
  else
    let s := { s with opcode_byte := byte }
    let op ← opTableGet byte
    let s := if s.rep ∧ ¬op.is_string then { s with rep := false } else s
    if op.destination = .lRM ∨ op.source = .lRM then
      stage_fetch_modrm { s with stage := .fetch_modrm }
    else if op.source = .lIMM ∨ op.source = .lIMM8 then
      stage_fetch_imm { s with stage := .fetch_imm }
    else if op.destination = .lADDR ∨ op.source = .lADDR ∨ op.source = .lSEGOFF then
      stage_fetch_address { s with stage := .fetch_address }
    else stage_decode_loc { s with stage := .decode_loc }

/-- cpu8086_clock: one tick. BIU step, WAIT stall, pending-cycle
countdown, queue-empty check, scratch reset after a completed instruction,
then the staged decoder. -/
def cpu8086_clock (s : St) : Except Err St :=
  let s := biu_step s
  let s := if s.opcode_byte = 0x9B ∧ s.test then addCycles s 5 else s
  if s.cycles > 0 then .ok { s with cycles := s.cycles - 1 }
  else if s.mt then .ok s
  else
    let s := if s.stage = .executing then cpu8086_reset_execution_regs s else s
    match s.stage with
    | .ready => stage_ready s
    | .fetch_modrm => stage_fetch_modrm s
    | .fetch_imm => stage_fetch_imm s
    | .fetch_address => stage_fetch_address s
    | .decode_loc => stage_decode_loc s
    | .executing => stage_executing s

/-- cpu8086_reset (note: the source zeroes `q_r` twice and never `q_w`). -/
def cpu8086_reset (s : St) : St :=
  let s := { s with flags := 0, ip := 0, cs := 0xFFFF, ds := 0, ss := 0, es := 0,
                    mt := true, q_r := 0,
                    biu_prefetch_cycles := 3, cycles := 0, current_ip := 0 }
  cpu8086_reset_execution_regs s

/-- cpu8086_new: `quick_malloc` is calloc, so every field starts zeroed
(pointers null, booleans false) before `cpu8086_reset` runs. -/
def cpu8086_new (m : Mem) : St :=
  cpu8086_reset
    { mem := m, ax := 0, cx := 0, dx := 0, bx := 0, sp := 0, bp := 0, si := 0, di := 0,
      es := 0, cs := 0, ss := 0, ds := 0, ip := 0, flags := 0,
      q0 := 0, q1 := 0, q2 := 0, q_r := 0, q_w := 0, hl := false, mt := false,
      current_ip := 0, cycles := 0, biu_prefetch_cycles := 0,
      rep := false, test := false, pre_g1 := 0, pre_g2 := 0,
      opcode_byte := 0, disp8_byte := 0, disp16_byte := 0, imm8_byte := 0,
      imm16_byte := 0, lo_segment := 0, hi_segment := 0, immediate := 0,
      rm := .nullp, reg := .nullp, stage := .ready, modrm_byte := 0,
      modrm_is_segreg := false,
      destination := ⟨.register, .nullp, false⟩,
      source := ⟨.register, .nullp, false⟩ }

/-- The one-tick step relation of the emulator: state `s` steps to outcome
`o` exactly when `cpu8086_clock` produces `o` from `s`. -/
def ClockStep (s : St) (o : Except Err St) : Prop := cpu8086_clock s = o

/-! ## Supporting lemmas -/

/-- A bus word is a 16-bit value. -/
theorem bus_read_short_lt (m : Mem) (a : Nat) : bus_read_short m a < 65536 := by
  unfold bus_read_short bus_read_byte
  omega

/-- Reading back a word just written to the bus returns the word: the two
byte addresses differ modulo 2^20, and the little-endian byte split
recomposes. -/
theorem bus_read_write_short (m : Mem) (a w : Nat) (hw : w < 65536) :
    bus_read_short (bus_write_short m a w) a = w := by
  unfold bus_read_short bus_write_short bus_read_byte bus_write_byte
  have h1 : ¬ (a % 1048576 = (a + 1) % 1048576) := by omega
  have h2 : ¬ ((a + 1) % 1048576 = a % 1048576) := by omega
  simp only [h1, h2, if_false, if_true, eq_self_iff_true]
  omega

/-! ## Concrete states for the claim theorems -/

/-- All-zero bus memory. -/
def memZero : Mem := fun _ => 0

/-- A CPU fresh out of reset on zero memory. -/
def st0 : St := cpu8086_new memZero

/-- State for the C2 scenario: a REPZ prefix has been consumed (repeat
pending), the queue holds the MOVSB opcode byte 0xA4, CX = 1, DS:SI =
0000:0100, ES:DI = 0000:0200. -/
def stC2 : St :=
  { st0 with stage := .ready, rep := true, pre_g1 := 0xF3,
             mt := false, q_r := 0, q_w := 1, hl := false, q0 := 0x00A4,
             biu_prefetch_cycles := 1, cycles := 0,
             cx := 1, ds := 0, si := 0x100, es := 0, di := 0x200 }

/-- State for the C3 evaluation: AX = 0x1122, DX = 0x3344. -/
def stC3 : St := { st0 with ax := 0x1122, dx := 0x3344 }

/-- State for the C4 scenario: about to run the FETCH_ADDRESS stage of a
far CALL (opcode 0x9A) whose four operand bytes 5B E0 00 F0 — offset word
0xE05B, segment word 0xF000 — wait in the queue. -/
def stC4 : St :=
  { st0 with stage := .fetch_address, opcode_byte := 0x9A,
             mt := false, q_r := 0, q_w := 2, hl := false,
             q0 := 0xE05B, q1 := 0xF000,
             biu_prefetch_cycles := 1, cycles := 0,
             cs := 0x1234, ss := 0, sp := 0x100, current_ip := 5 }

/-- Memory for the C6 evaluation: the dword at 0x500 is 5678:1234. -/
def memC6 : Mem := fun a =>
  if a = 0x500 then 0x34 else if a = 0x501 then 0x12
  else if a = 0x502 then 0x78 else if a = 0x503 then 0x56 else 0

/-- State for the C6 evaluation: an LDS (opcode 0xC5) with destination BX
and a resolved memory source at physical 0x500; DS preloaded to 0xAAAA. -/
def stC6 : St :=
  { st0 with mem := memC6, opcode_byte := 0xC5, ds := 0xAAAA,
             destination := ⟨.register, cpu8086_reg_word 3, false⟩,
             source := ⟨.memory, .memp 0x500, true⟩ }

/-- State for the C7 counterexample: queue empty (hence not full), BIU
countdown at zero, CS:IP = 1000:0000, EU busy for several cycles. -/
def stC7 : St :=
  { st0 with mem := fun a => if a = 0x10000 then 0xAB else if a = 0x10001 then 0xCD else 0,
             mt := true, q_r := 0, q_w := 0, hl := false,
             biu_prefetch_cycles := 0, cycles := 7, cs := 0x1000, ip := 0 }

/-- State for the C8 counterexample: the queue delivers byte 0xCC to the
READY stage. -/
def stC8 : St :=
  { st0 with mt := false, q_r := 0, q_w := 1, hl := false, q0 := 0x00CC,
             biu_prefetch_cycles := 1, cycles := 0 }

/-- State for the C8 witness: an in-bounds opcode (0x0F) whose table entry
has no handler, poised at the EXECUTING stage. -/
def stC8w : St := { st0 with opcode_byte := 0x0F, rep := false }

/-- State for the C9 witness. -/
def stC9 : St := { st0 with ss := 0x100, sp := 8 }

/-! ## Claim theorems -/

/-- C1: the control-transfer primitive `cpu8086_jump` is claimed to leave
the queue empty (empty flag set TRUE, `hl = 0`, `r = w`). The code does
set `hl := 0` and `r := w`, but it sets the empty flag to FALSE on every
jump — with `r = w` that marks the queue full, not empty — contradicting
the `Clear the prefetch queue` comment above it and the spec. This
theorem evaluates the code: after any jump the empty flag `mt` is false
while the read index equals the write index. -/
theorem c1_jump_sets_mt_false :
    ∀ (s : St) (c i : Nat),
      (cpu8086_jump s c i).mt = false ∧
      (cpu8086_jump s c i).q_r = s.q_w ∧
      (cpu8086_jump s c i).hl = false ∧
      (cpu8086_jump s c i).cs = c % 65536 ∧
      (cpu8086_jump s c i).ip = i % 65536 := by
  intro s c i
  unfold cpu8086_jump
  dsimp only
  split <;> simp

/-- C2: REP MOVSB with CX = 1, DS:SI = 0000:0100, ES:DI = 0000:0200 is
claimed to copy one byte from DS:SI to ES:DI and leave CX = 0. Instead,
the missing `break`s after the LOC_STRSRC/LOC_STRDST cases of `loc_set`
resolve the source to ES:DI (not DS:SI) with category NULL, and the first
loop iteration of op_mov reaches the operand-class switch with a
NULL/NULL pair, which asserts: the tick aborts. -/
theorem c2_rep_movsb_aborts :
    cpu8086_clock stC2 = .error .assertFail ∧
    loc_set stC2 .lSTRSRC ⟨.register, .nullp, false⟩ =
      ⟨.nullv, .memp 0x200, true⟩ := by
  constructor
  · rfl
  · rfl

/-- C3: byte-register encoding 4 is claimed to select AH (byte offset 1 of
the register block). `cpu8086_reg_byte` computes
`(reg & 3) * 2 + (reg & 4)`, which for 4 yields byte offset 4 — the low
byte of DX — colliding with encoding 2 (DL); a byte write through
encoding 4 therefore modifies DL and leaves AX untouched. -/
theorem c3_reg_byte_encoding_bug :
    cpu8086_reg_byte 4 = Ptr.reg 4 ∧
    cpu8086_reg_byte 2 = Ptr.reg 4 ∧
    (loc_write_byte stC3 ⟨.register, cpu8086_reg_byte 4, false⟩ 0xAB).map
      (fun t => (t.ax, t.dx)) = .ok (0x1122, 0x33AB) := by
  refine ⟨rfl, rfl, rfl⟩

/-- C4: far CALL is claimed to end with IP = the encoded offset word
(0xE05B) and CS = the encoded segment word (0xF000). The decoder composes
`immediate` with the offset bytes in the HIGH half and the segment bytes
in the LOW half, and op_callfar reads the low word first as the new IP:
the executed far CALL ends with CS = 0xE05B and IP = 0xF000 — swapped. -/
theorem c4_callfar_swaps_cs_ip :
    (cpu8086_clock stC4).map (fun t => (t.cs, t.ip)) = .ok (0xE05B, 0xF000) := by
  rfl

/-- C5: PF is claimed to be the even parity of only the low 8 bits of the
result, for words as for bytes. The byte path agrees (the table entry of
the low byte of 0 is 1 = even), but the word path XORs the two byte
entries, so a word result 0x0000 computes parity FALSE, and
cpu8086_setpzs_flags leaves PF clear where the claim requires it set. -/
theorem c5_word_parity_bug :
    parity_lookup 0 = true ∧
    calculate_parity 0 false = true ∧
    calculate_parity 0 true = false ∧
    (cpu8086_setpzs_flags st0 0 true).flags &&& FLAG_PARITY = 0 := by
  refine ⟨rfl, rfl, rfl, rfl⟩

/-- C6: LDS is claimed to load the word at the RM address into the
destination and the word at address+2 into DS. Evaluating op_lds on a
source at 0x500 holding 5678:1234: the destination receives 0x1234 but
the segment word 0x5678 is written to ES, and DS keeps its old value. -/
theorem c6_lds_loads_es_not_ds :
    (op_lds (opRow "LDS" .lREG .lRM true false (some .lds)) stC6).map
      (fun t => (t.bx, t.es, t.ds)) = .ok (0x1234, 0x5678, 0xAAAA) := by
  rfl

/-- C7 counterexample: from a not-full queue with the countdown at zero,
the tick performs the fetch but stores 255 into the countdown — the value
of the C expression `(0 - 1) % 4` kept by the uint8 field — not 4 as the
claim states. -/
theorem c7_counterexample :
    (cpu8086_clock stC7).map (fun t => t.biu_prefetch_cycles) = .ok 255 ∧
    (255 : Nat) ≠ 4 := by
  exact ⟨rfl, by decide⟩

/-- C7 (amended): on a tick where the queue is not full and the countdown
is zero, the BIU reads the bus word at (CS << 4) + IP into q[w], advances
w mod 3, marks the queue non-empty, advances IP by two — or sets hl and
advances by one if IP was odd — and stores (0-1) % 4 = 255 (C truncated
remainder in the uint8 field) into the countdown; 255 steps to 2, 1, 0 on
the following active ticks, so the next fetch completes one 4-cycle bus
transaction later. -/
theorem c7_biu_fetch_step (s : St)
    (hnf : s.mt = true ∨ s.q_w ≠ s.q_r)
    (h0 : s.biu_prefetch_cycles = 0) (hq : s.q_w < 3) :
    qGet (biu_step s) s.q_w = bus_read_short s.mem (s.cs <<< 4 + s.ip) ∧
    (biu_step s).q_w = (s.q_w + 1) % 3 ∧
    (biu_step s).mt = false ∧
    (s.ip % 2 = 1 → (biu_step s).hl = true ∧ (biu_step s).ip = (s.ip + 1) % 65536) ∧
    (s.ip % 2 = 0 → (biu_step s).hl = s.hl ∧ (biu_step s).ip = (s.ip + 2) % 65536) ∧
    (biu_step s).biu_prefetch_cycles = 255 ∧
    cDecMod4 255 = 2 ∧ cDecMod4 2 = 1 ∧ cDecMod4 1 = 0 := by
  have hw : bus_read_short s.mem (s.cs <<< 4 + s.ip) < 65536 := bus_read_short_lt _ _
  have hc : s.mt = true ∨ ¬ (s.q_w = s.q_r) := hnf
  have hq3 : s.q_w = 0 ∨ s.q_w = 1 ∨ s.q_w = 2 := by omega
  unfold biu_step
  rw [if_pos hc, if_pos h0]
  by_cases hip : s.ip % 2 = 1
  · have hip0 : ¬ (s.ip % 2 = 0) := by omega
    rcases hq3 with h | h | h <;>
      simp [qSet, qGet, h, h0, hip, hip0, cDecMod4, Nat.mod_eq_of_lt hw]
  · have hip0 : s.ip % 2 = 0 := by omega
    rcases hq3 with h | h | h <;>
      simp [qSet, qGet, h, h0, hip, hip0, cDecMod4, Nat.mod_eq_of_lt hw]

/-- C7 witness: the amended fetch-step theorem applied at the concrete
state stC7. -/
theorem c7_biu_fetch_step_witness :
    qGet (biu_step stC7) stC7.q_w = bus_read_short stC7.mem (stC7.cs <<< 4 + stC7.ip) ∧
    (biu_step stC7).q_w = (stC7.q_w + 1) % 3 ∧
    (biu_step stC7).mt = false ∧
    (stC7.ip % 2 = 1 → (biu_step stC7).hl = true ∧ (biu_step stC7).ip = (stC7.ip + 1) % 65536) ∧
    (stC7.ip % 2 = 0 → (biu_step stC7).hl = stC7.hl ∧ (biu_step stC7).ip = (stC7.ip + 2) % 65536) ∧
    (biu_step stC7).biu_prefetch_cycles = 255 ∧
    cDecMod4 255 = 2 ∧ cDecMod4 2 = 1 ∧ cDecMod4 1 = 0 :=
  c7_biu_fetch_step stC7 (Or.inl rfl) rfl (by decide)

/-- C8 counterexample: the root table has 204 entries, so the lookup for
byte 0xCC is NOT in bounds (the claim asserts in-bounds lookups for all of
0x00..0xFF); a tick that dequeues 0xCC as the opcode performs the C
out-of-bounds table read, modelled as the explicit oobTable error. -/
theorem c8_counterexample :
    ¬ (0xCC < op_table.length) ∧ cpu8086_clock stC8 = .error .oobTable := by
  exact ⟨by decide, rfl⟩

/-- C8 (amended): the root-table lookup is in bounds exactly for the bytes
0x00..0xCB (the table has 204 entries; bytes 0xCC..0xFF index past it),
and an in-bounds entry with no handler halts the EXECUTING stage through
the assertion rather than executing. -/
theorem c8_dispatch_bounds :
    (∀ b : Nat, b < op_table.length ↔ b ≤ 0xCB) ∧
    (∀ (s : St) (o : Opcode), opTableGet s.opcode_byte = .ok o → o.func = none →
      stage_executing s = .error .assertFail) := by
  constructor
  · intro b
    have h : op_table.length = 204 := by rfl
    omega
  · intro s o h1 h2
    obtain ⟨n, d, sc, w, sf, f⟩ := o
    cases f with
    | none =>
      unfold stage_executing
      rw [h1]
      rfl
    | some g => simp at h2

/-- C8 witness: byte 0x0F is in bounds and its entry has no handler; the
EXECUTING stage on it asserts. -/
theorem c8_dispatch_bounds_witness :
    stage_executing stC8w = .error .assertFail :=
  c8_dispatch_bounds.2 stC8w (opRow "ILLEG." .lNULL .lNULL true false none) rfl rfl

/-- C9: PUSH decrements SP by 2 then writes the word at SS:SP; POP reads
the word at SS:SP then increments SP by 2 — so a push of any 16-bit word
followed by a pop returns the word and restores SP, for every SS, SP and
memory. -/
theorem c9_push_pop_roundtrip (s : St) (w : Nat)
    (hw : w < 65536) (hsp : s.sp < 65536) :
    (cpu8086_pop (cpu8086_push s w)).2 = w ∧
    (cpu8086_pop (cpu8086_push s w)).1.sp = s.sp := by
  unfold cpu8086_pop cpu8086_push
  dsimp only
  rw [Nat.mod_eq_of_lt hw]
  refine ⟨bus_read_write_short _ _ _ hw, ?_⟩
  omega

/-- C9 witness: the stack round-trip theorem at SS:SP = 0100:0008 and word
0xBEEF. -/
theorem c9_push_pop_roundtrip_witness :
    (cpu8086_pop (cpu8086_push stC9 0xBEEF)).2 = 0xBEEF ∧
    (cpu8086_pop (cpu8086_push stC9 0xBEEF)).1.sp = stC9.sp :=
  c9_push_pop_roundtrip stC9 0xBEEF (by decide) (by decide)

/-- C10: the clock is deterministic — the one-tick step relation relates
every state (CPU registers together with bus memory) to exactly one
outcome, because `cpu8086_clock` is a pure function of that state with no
other inputs (aborts and C undefined behaviour appear as explicit error
outcomes). -/
theorem c10_clock_deterministic :
    ∀ (s : St) (o₁ o₂ : Except Err St), ClockStep s o₁ → ClockStep s o₂ → o₁ = o₂ := by
  intro s o₁ o₂ h₁ h₂
  rw [← h₁, ← h₂]

/-- C10 witness: the determinism theorem applied at the reset state. -/
theorem c10_clock_deterministic_witness :
    cpu8086_clock st0 = cpu8086_clock st0 :=
  c10_clock_deterministic st0 (cpu8086_clock st0) (cpu8086_clock st0) rfl rfl

end Flex
